import Mathlib

/-!
Verification development for the Audit-Sampling-Tool anomaly pipeline
(`src/ml/features.py`, `src/backend/utils.py`, `src/backend/api/anomaly.py`,
`src/app.py`).

Modelling conventions:
* Python floats are modelled as exact rationals (`ℚ`).  The transcendental
  routines the source calls (`np.log1p`, the square root inside
  `pandas.Series.std`) are passed in as explicit function parameters
  `log1pQ sqrtQ : ℚ → ℚ`; theorems only assume the facts about them that the
  claims need (for example `sqrtQ 0 = 0`).
* A `pd.Timestamp` is abstracted by the accessor values the feature builder
  reads from it: day of week, month, month-end flag and its day number
  relative to the epoch; "now" is the parameter `today : ℤ` (a day number).
* A JSON row field is modelled by its post-decoding classification: key
  absent, key present with a null value, a parseable value, or a present but
  unparseable value.  (`pd.to_numeric(errors="coerce")` and
  `pd.to_datetime(errors="coerce")` send the last class to NaN/NaT.)
-/

/-- A `pd.Timestamp`, abstracted by the accessors `prepare_features` reads:
`dt.dayofweek`, `dt.month`, `dt.is_month_end`, and the normalized day number
used for the age computation in `_safe_doc_age_days`. -/
structure Timestamp where
  dayOfWeek : ℤ
  month : ℤ
  isMonthEnd : Bool
  epochDay : ℤ
deriving DecidableEq, Repr

/-- The `date` field of a raw row: absent key, present-but-null, a parseable
timestamp, or a present unparseable value (coerced to NaT by the source). -/
inductive DateField where
  | absent
  | null
  | val (t : Timestamp)
  | malformed
deriving DecidableEq, Repr

/-- The `amount` field of a raw row: absent key, present-but-null, a numeric
value, or a present non-numeric value (coerced to NaN by the source). -/
inductive NumField where
  | absent
  | null
  | val (q : ℚ)
  | malformed
deriving DecidableEq, Repr

/-- The `vendor`/`department` field of a raw row: absent key, present-but-null,
or a string value (a blank string is `val ""`, distinct from null/absent). -/
inductive StrField where
  | absent
  | null
  | val (s : String)
deriving DecidableEq, Repr

/-- One element of the caller's `transactions` array, restricted to the four
required raw columns (extra keys play no role in any claim). -/
structure RawRow where
  date : DateField
  amount : NumField
  vendor : StrField
  department : StrField
deriving DecidableEq, Repr

/-- `REQUIRED_RAW_COLUMNS` of `src/ml/features.py`. -/
def REQUIRED_RAW_COLUMNS : List String := ["date", "amount", "vendor", "department"]

/-- `UNKNOWN_VENDOR` of `src/ml/features.py`. -/
def UNKNOWN_VENDOR : String := "Unknown Vendor"

/-- `UNKNOWN_DEPARTMENT` of `src/ml/features.py`. -/
def UNKNOWN_DEPARTMENT : String := "Unknown Department"

/-- `frame["amount"] = pd.to_numeric(frame["amount"], errors="coerce").fillna(0.0)`:
absent/null/non-numeric values all become NaN and then 0.0. -/
def coerceAmount : NumField → ℚ
  | .val q => q
  | _ => 0

/-- `frame[col].fillna(sentinel).astype(str)`: only missing (absent key or
null) values are replaced by the sentinel; a present string is kept as is. -/
def coerceStr (sentinel : String) : StrField → String
  | .val s => s
  | _ => sentinel

/-- `pd.to_datetime(frame["date"], errors="coerce", utc=True)`: NaT for
absent, null or unparseable dates. -/
def parseDate : DateField → Option Timestamp
  | .val t => some t
  | _ => none

/-- One derived record per row, field for field the columns built by
`prepare_features` (`FEATURE_COLUMNS` order). -/
structure FeatureVector where
  amount : ℚ
  log_amount : ℚ
  day_of_week : ℤ
  month : ℤ
  is_month_end : ℤ
  doc_age_days : ℤ
  vendor_txn_freq : ℚ
  dept_txn_freq : ℚ
  vendor_avg_amount : ℚ
  dept_avg_amount : ℚ
  vendor_amount_ratio : ℚ
  dept_amount_ratio : ℚ
  global_amount_zscore : ℚ
  vendor : String
  department : String
deriving DecidableEq, Repr

/-- `_safe_ratio` of `src/ml/features.py`: the denominator is replaced by NaN
when 0, and the NaN/inf results are replaced by 0.0 — over `ℚ`, a zero
denominator yields 0 and every other division is exact. -/
def safe_ratio (numerator denominator : ℚ) : ℚ :=
  if denominator = 0 then 0 else numerator / denominator

/-- The coerced amounts of a batch (`frame["amount"]` after line 61). -/
def batchAmounts (data : List RawRow) : List ℚ :=
  data.map fun r => coerceAmount r.amount

/-- `frame["amount"].mean()` (line 87). -/
def batchMean (data : List RawRow) : ℚ :=
  (batchAmounts data).sum / (data.length : ℚ)

/-- The population variance behind `frame["amount"].std(ddof=0)` (line 88):
denominator `N`, not `N - 1`. -/
def batchVar (data : List RawRow) : ℚ :=
  ((batchAmounts data).map fun a => (a - batchMean data) ^ 2).sum / (data.length : ℚ)

/-- `denom = overall_std if overall_std and overall_std > 1e-9 else 1.0`
(line 89): `overall_std` is truthy exactly when nonzero. -/
def zscoreDenom (sqrtQ : ℚ → ℚ) (data : List RawRow) : ℚ :=
  let overall_std := sqrtQ (batchVar data)
  if overall_std ≠ 0 ∧ overall_std > (1e-9 : ℚ) then overall_std else 1

/-- The (coerced vendor, coerced amount) column pair used by
`frame.groupby("vendor")["amount"]` (line 75). -/
def vendorPairs (data : List RawRow) : List (String × ℚ) :=
  data.map fun r => (coerceStr UNKNOWN_VENDOR r.vendor, coerceAmount r.amount)

/-- The (coerced department, coerced amount) column pair used by
`frame.groupby("department")["amount"]` (line 76). -/
def deptPairs (data : List RawRow) : List (String × ℚ) :=
  data.map fun r => (coerceStr UNKNOWN_DEPARTMENT r.department, coerceAmount r.amount)

/-- `groups.transform("count")` at key `k`: size of the row's group. -/
def groupCount (k : String) (ps : List (String × ℚ)) : ℚ :=
  (((ps.filter fun p => p.1 = k).length : ℕ) : ℚ)

/-- Sum of the amounts of the group at key `k`. -/
def groupSum (k : String) (ps : List (String × ℚ)) : ℚ :=
  ((ps.filter fun p => p.1 = k).map Prod.snd).sum

/-- `groups.transform("mean")` at key `k` (groups are never empty for a key
taken from a row of the batch, so the `.fillna(0.0)` of lines 79-80 is inert). -/
def groupMean (k : String) (ps : List (String × ℚ)) : ℚ :=
  groupSum k ps / groupCount k ps

/-- The per-row second pass of `prepare_features` (lines 61-94): all
batch-wide aggregates are passed in, `today` is the clock read by
`_safe_doc_age_days`. -/
def mkFeatureRow (log1pQ : ℚ → ℚ) (today : ℤ)
    (vps dps : List (String × ℚ)) (overall_mean denom : ℚ) (r : RawRow) :
    FeatureVector :=
  let a := coerceAmount r.amount
  let v := coerceStr UNKNOWN_VENDOR r.vendor
  let d := coerceStr UNKNOWN_DEPARTMENT r.department
  let t := parseDate r.date
  { amount := a
    log_amount := log1pQ (max a 0)
    day_of_week := match t with | some ts => ts.dayOfWeek | none => -1
    month := match t with | some ts => ts.month | none => 0
    is_month_end := match t with | some ts => (if ts.isMonthEnd then 1 else 0) | none => 0
    doc_age_days := match t with | some ts => max (today - ts.epochDay) 0 | none => 0
    vendor_txn_freq := groupCount v vps
    dept_txn_freq := groupCount d dps
    vendor_avg_amount := groupMean v vps
    dept_avg_amount := groupMean d dps
    vendor_amount_ratio := safe_ratio a (groupMean v vps)
    dept_amount_ratio := safe_ratio a (groupMean d dps)
    global_amount_zscore := (a - overall_mean) / denom
    vendor := v
    department := d }

/-- `prepare_features` of `src/ml/features.py`: empty input short-circuits to
an empty frame (line 55-56); otherwise every row is mapped to its feature
vector against the batch-wide aggregates. -/
def prepare_features (sqrtQ log1pQ : ℚ → ℚ) (today : ℤ) (data : List RawRow) :
    List FeatureVector :=
  if data.isEmpty then []
  else
    data.map (mkFeatureRow log1pQ today (vendorPairs data) (deptPairs data)
      (batchMean data) (zscoreDenom sqrtQ data))

/-- Insert a thousands separator after every three digits, working over the
reversed digit list (helper for Python's `","` format option). -/
def commaRev : List Char → List Char
  | c1 :: c2 :: c3 :: c4 :: rest => c1 :: c2 :: c3 :: ',' :: commaRev (c4 :: rest)
  | l => l

/-- `"1234567"` becomes `"1,234,567"`. -/
def insertCommas (s : String) : String :=
  String.mk (commaRev s.toList.reverse).reverse

/-- Left-pad a digit string with zeros to `p` digits. -/
def padZeros (p : ℕ) (s : String) : String :=
  if s.length < p then String.mk (List.replicate (p - s.length) '0') ++ s
  else s

/-- Python's fixed-point float formatting `f"{q:.pf}"` over `ℚ`: `p` decimal
digits, optional thousands separators.  Rounding is half-up on the magnitude;
the Python original rounds its binary double half-even, which agrees
everywhere a claim or a concrete input in this file evaluates it. -/
def fmtFixed (commas : Bool) (p : ℕ) (q : ℚ) : String :=
  let sign := if q < 0 then "-" else ""
  let mag := if q < 0 then -q else q
  let scaled := (Rat.floor (mag * (10 : ℚ) ^ p + 1 / 2)).toNat
  let ip := toString (scaled / 10 ^ p)
  let fp := padZeros p (toString (scaled % 10 ^ p))
  sign ++ (if commas then insertCommas ip else ip) ++ "." ++ fp

/-- `f"{q:,.2f}"`. -/
def fmt2c (q : ℚ) : String := fmtFixed true 2 q

/-- `f"{q:.1f}"`. -/
def fmt1 (q : ℚ) : String := fmtFixed false 1 q

/-- `(row.get(key) or "").strip() or fallback` of both explanation
generators: a missing, null or whitespace-only raw field displays as the
fallback string, anything else as its stripped value. -/
def displayName (fallback : String) : StrField → String
  | .val s => if s.trim = "" then fallback else s.trim
  | _ => fallback

/-- `safe_float(row.get("amount"), safe_float(features.get("amount"), 0.0))`:
the raw amount when it is numeric, else the feature vector's amount (which is
always a number, so the final 0.0 default never fires). -/
def rowAmount (row : RawRow) (features : FeatureVector) : ℚ :=
  match row.amount with
  | .val q => q
  | _ => features.amount

namespace BackendUtils

/-- `summarize_anomaly_reason` of `src/backend/utils.py` (lines 44-87).  The
feature dict always carries every numeric feature as a float, so each
`safe_float(features.get(...))` is the plain field of the feature vector. -/
def summarize_anomaly_reason (row : RawRow) (features : FeatureVector) : String :=
  let vendor := displayName ("this vendor") row.vendor
  let department := displayName ("this department") row.department
  let amount := rowAmount row features
  let vendor_avg := features.vendor_avg_amount
  let dept_avg := features.dept_avg_amount
  let vendor_ratio := features.vendor_amount_ratio
  let dept_ratio := features.dept_amount_ratio
  let vendor_freq := features.vendor_txn_freq
  let dept_freq := features.dept_txn_freq
  let global_z := features.global_amount_zscore
  let reasons : List String :=
    (if vendor_ratio ≥ 5 ∧ vendor_avg > 0 then
      ["Amount " ++ fmt2c amount ++ " is " ++ fmt1 vendor_ratio ++
        "x higher than " ++ vendor ++ "'s usual spend (~" ++ fmt2c vendor_avg ++ ")."]
     else []) ++
    (if dept_ratio ≥ 5 ∧ dept_avg > 0 then
      ["Amount " ++ fmt2c amount ++ " is " ++ fmt1 dept_ratio ++
        "x the average for " ++ department ++ " (~" ++ fmt2c dept_avg ++ ")."]
     else []) ++
    (if global_z ≥ 3 then
      ["Value is " ++ fmt1 global_z ++ " standard deviation above the dataset average."]
     else []) ++
    (if vendor_freq ≤ 1 then
      ["First transaction recorded for " ++ vendor ++ " in this file."]
     else []) ++
    (if dept_freq ≤ 1 then
      [department ++ " only appears once, so this entry has no comparable peers."]
     else [])
  if reasons = [] then
    "Model flagged this entry as unusual compared to prior transactions."
  else
    String.intercalate " " (reasons.take 2)

end BackendUtils

namespace AppMain

/-- `summarize_anomaly_reason` of `src/app.py` (lines 270-306): same cascade,
but the first two messages use the sign `×` where the backend copy writes
`x`, and the third says `standard deviations` where the backend copy says
`standard deviation`. -/
def summarize_anomaly_reason (row : RawRow) (features : FeatureVector) : String :=
  let vendor := displayName ("this vendor") row.vendor
  let department := displayName ("this department") row.department
  let amount := rowAmount row features
  let vendor_avg := features.vendor_avg_amount
  let dept_avg := features.dept_avg_amount
  let vendor_ratio := features.vendor_amount_ratio
  let dept_ratio := features.dept_amount_ratio
  let vendor_freq := features.vendor_txn_freq
  let dept_freq := features.dept_txn_freq
  let global_z := features.global_amount_zscore
  let reasons : List String :=
    (if vendor_ratio ≥ 5 ∧ vendor_avg > 0 then
      ["Amount " ++ fmt2c amount ++ " is " ++ fmt1 vendor_ratio ++
        "× higher than " ++ vendor ++ "'s usual spend (~" ++ fmt2c vendor_avg ++ ")."]
     else []) ++
    (if dept_ratio ≥ 5 ∧ dept_avg > 0 then
      ["Amount " ++ fmt2c amount ++ " is " ++ fmt1 dept_ratio ++
        "× the average for " ++ department ++ " (~" ++ fmt2c dept_avg ++ ")."]
     else []) ++
    (if global_z ≥ 3 then
      ["Value is " ++ fmt1 global_z ++ " standard deviations above the dataset average."]
     else []) ++
    (if vendor_freq ≤ 1 then
      ["First transaction recorded for " ++ vendor ++ " in this file."]
     else []) ++
    (if dept_freq ≤ 1 then
      [department ++ " only appears once, so this entry has no comparable peers."]
     else [])
  if reasons = [] then
    "Model flagged this entry as unusual compared to prior transactions."
  else
    String.intercalate " " (reasons.take 2)

end AppMain

/-- One element of the endpoint's `results` list. -/
structure ScoredResult where
  index : ℕ
  score : ℚ
  isAnomaly : Bool
  reason : String
deriving DecidableEq, Repr

/-- The HTTP outcomes of the scoring endpoint: the JSON success payload, a
400-class error, a handled 500/503-class error, or an unhandled exception
(Flask's generic 500). -/
inductive ApiResponse where
  | ok (results : List ScoredResult) (threshold : ℚ) (requiredFields : List String)
  | clientError (msg : String)
  | serverError (msg : String)
  | crash
deriving DecidableEq, Repr

/-- The keys a row contributes to `pd.DataFrame(rows).columns` (a key present
with a null value still creates its column). -/
def rowKeys (r : RawRow) : List String :=
  (if r.date = .absent then [] else ["date"]) ++
  (if r.amount = .absent then [] else ["amount"]) ++
  (if r.vendor = .absent then [] else ["vendor"]) ++
  (if r.department = .absent then [] else ["department"])

/-- `field in frame.columns`: some row of the batch has the key. -/
def hasColumn (rows : List RawRow) (c : String) : Prop :=
  ∃ r ∈ rows, c ∈ rowKeys r

instance (rows : List RawRow) (c : String) : Decidable (hasColumn rows c) := by
  unfold hasColumn; infer_instance

/-- `missing = [field for field in REQUIRED_RAW_COLUMNS if field not in
frame.columns]` (line 87 of `src/backend/api/anomaly.py`). -/
def missingFields (rows : List RawRow) : List String :=
  REQUIRED_RAW_COLUMNS.filter fun c => ¬ hasColumn rows c

/-- The `for idx, score in enumerate(scores)` loop of `anomaly_score`
(lines 100-113 of `src/backend/api/anomaly.py`): `rows[idx]` and
`feature_records[idx]` are read only for a flagged row; an out-of-range index
there raises (modelled by `none`). -/
def scoreRows (threshold : ℚ) (rows : List RawRow) (recs : List FeatureVector) :
    List ℚ → ℕ → Option (List ScoredResult)
  | [], _ => some []
  | s :: rest, idx =>
    if s < threshold then
      match rows.get? idx, recs.get? idx with
      | some row, some rec =>
        match scoreRows threshold rows recs rest (idx + 1) with
        | some tl =>
          some ({ index := idx, score := s, isAnomaly := true,
                  reason := BackendUtils.summarize_anomaly_reason row rec } :: tl)
        | none => none
      | _, _ => none
    else
      match scoreRows threshold rows recs rest (idx + 1) with
      | some tl =>
        some ({ index := idx, score := s, isAnomaly := false, reason := "" } :: tl)
      | none => none

/-- The `/api/anomaly/score` endpoint, `anomaly_score` of
`src/backend/api/anomaly.py` (lines 70-119), from the point where the model
is available and the payload decoded to a list of row objects.  The external
Scorer (`MODEL_PIPELINE.decision_function`) is the parameter `scorer`;
`none` models it raising, which the `try` block turns into the 500 response. -/
def anomaly_score (scorer : List FeatureVector → Option (List ℚ)) (threshold : ℚ)
    (sqrtQ log1pQ : ℚ → ℚ) (today : ℤ) (rows : List RawRow) : ApiResponse :=
  if rows.isEmpty then
    .clientError "Provide a non-empty 'transactions' array."
  else if rows.length > 10000 then
    .clientError "Batch size limit exceeded"
  else if missingFields rows ≠ [] then
    .clientError ("Missing fields: " ++ String.intercalate ", " (missingFields rows))
  else
    let features := prepare_features sqrtQ log1pQ today rows
    match scorer features with
    | none => .serverError "Scoring failed"
    | some scores =>
      match scoreRows threshold rows features scores 0 with
      | some results => .ok results threshold REQUIRED_RAW_COLUMNS
      | none => .crash

/-- A feature vector with its clock-dependent field blanked: every other
field of `prepare_features` is independent of "now". -/
def clearDocAge (fv : FeatureVector) : FeatureVector := { fv with doc_age_days := 0 }

/-- The reason string both explanation generators produce for a single-row
batch whose vendor/department raw fields are missing or blank: only the two
novelty rules fire, and the display names come from the raw row's fallback
strings, not from the feature builder's sentinels. -/
def noveltyReasonStr : String :=
  "First transaction recorded for this vendor in this file. this department only appears once, so this entry has no comparable peers."

/-! ### Concrete example inputs used by witnesses and counterexamples -/

/-- A well-formed row: every required key present (`date` null but present). -/
def exRow : RawRow := ⟨.null, .val 5, .val "Acme", .val "Ops"⟩

/-- A scorer answering score 0 for every row (one score per input row). -/
def exScorer : List FeatureVector → Option (List ℚ) :=
  fun fvs => some (fvs.map fun _ => 0)

/-- A row whose `vendor` key is absent from the object (its column is missing
when no other row supplies it) while `department` is present but null. -/
def exRowNoVendor : RawRow := ⟨.null, .val 5, .absent, .null⟩

/-- A row whose amount is zero, making its one-row vendor/department groups
average to zero. -/
def exZeroRow : RawRow := ⟨.null, .val 0, .val "A", .val "B"⟩

/-- The feature vector `prepare_features` (with identity `sqrt`/`log1p` and
`today = 0`) derives from the batch `[exZeroRow]`. -/
def exZeroFv : FeatureVector := ⟨0, 0, -1, 0, 0, 0, 1, 1, 0, 0, 0, 0, 0, "A", "B"⟩

/-- A row with an unparseable amount and an unparseable date. -/
def exBadRow : RawRow := ⟨.malformed, .malformed, .val "A", .val "B"⟩

/-- A single-row batch whose vendor and department are null. -/
def rowNullVD (d : DateField) (a : ℚ) : RawRow := ⟨d, .val a, .null, .null⟩

/-- A single-row batch whose vendor and department are present but blank. -/
def rowBlankVD (d : DateField) (a : ℚ) : RawRow := ⟨d, .val a, .val "", .val ""⟩

/-- A feature record whose only firing explanation rule is the global
z-score rule (z = 5; ratios 0, frequencies 2). -/
def exZFv : FeatureVector := ⟨0, 0, 0, 1, 0, 0, 2, 2, 0, 0, 0, 0, 5, "V", "D"⟩

/-- A raw row to pair with `exZFv`. -/
def exZRow : RawRow := ⟨.absent, .absent, .val "V", .val "D"⟩

/-- A feature record firing the vendor-outlier, department-outlier and
global-outlier rules simultaneously (ratios 10 and 20, z = 5). -/
def exOutlierFv : FeatureVector :=
  ⟨1000, 0, 0, 1, 0, 0, 3, 3, 100, 50, 10, 20, 5, "Acme", "Ops"⟩

/-- A raw row to pair with `exOutlierFv`. -/
def exOutlierRow : RawRow := ⟨.absent, .val 1000, .val "Acme", .val "Ops"⟩

/-- A feature record matching none of the five explanation rules. -/
def exQuietFv : FeatureVector := ⟨10, 0, 0, 1, 0, 0, 2, 2, 10, 10, 1, 1, 0, "V", "D"⟩

/-! ### Helper lemmas -/

/-- The empty-batch guard of `prepare_features` changes nothing: the map over
an empty list is empty anyway. -/
theorem prepare_features_eq_map (sqrtQ log1pQ : ℚ → ℚ) (today : ℤ)
    (data : List RawRow) :
    prepare_features sqrtQ log1pQ today data =
      data.map (mkFeatureRow log1pQ today (vendorPairs data) (deptPairs data)
        (batchMean data) (zscoreDenom sqrtQ data)) := by
  cases data <;> simp [prepare_features]

/-- The feature builder yields exactly one feature vector per input row. -/
theorem prepare_features_length (sqrtQ log1pQ : ℚ → ℚ) (today : ℤ)
    (data : List RawRow) :
    (prepare_features sqrtQ log1pQ today data).length = data.length := by
  rw [prepare_features_eq_map]; exact List.length_map _ _

/-- What the endpoint loop returns when every index it touches is in range:
one result per score, indices counting up from `idx`, scores passed through,
the verdict a strict comparison with the threshold, and an empty reason for
every unflagged row. -/
theorem scoreRows_spec (threshold : ℚ) (rows : List RawRow)
    (recs : List FeatureVector) :
    ∀ (scores : List ℚ) (idx : ℕ), idx + scores.length ≤ rows.length →
      idx + scores.length ≤ recs.length →
      ∃ l, scoreRows threshold rows recs scores idx = some l ∧
        l.map ScoredResult.index = List.range' idx scores.length ∧
        l.map ScoredResult.score = scores ∧
        ∀ res ∈ l, res.isAnomaly = decide (res.score < threshold) ∧
          (res.isAnomaly = false → res.reason = "") := by
  intro scores
  induction scores with
  | nil =>
    intro idx _ _
    exact ⟨[], rfl, by simp [List.range'], by simp, by simp⟩
  | cons s rest ih =>
    intro idx hr hc
    simp only [List.length_cons] at hr hc
    have hr1 : idx < rows.length := by omega
    have hc1 : idx < recs.length := by omega
    obtain ⟨l, hl, hidx, hsc, hprops⟩ := ih (idx + 1) (by omega) (by omega)
    have hrow : rows[idx]? = some (rows[idx]) := List.getElem?_eq_getElem hr1
    have hrec : recs[idx]? = some (recs[idx]) := List.getElem?_eq_getElem hc1
    by_cases hst : s < threshold
    · refine ⟨ScoredResult.mk idx s true
          (BackendUtils.summarize_anomaly_reason (rows[idx]) (recs[idx])) :: l,
          ?_, ?_, ?_, ?_⟩
      · simp [scoreRows, hst, hrow, hrec, hl]
      · simp [hidx, List.range'_succ]
      · simp [hsc]
      · intro res hres
        rcases List.mem_cons.mp hres with rfl | hres
        · simp [hst]
        · exact hprops res hres
    · refine ⟨ScoredResult.mk idx s false "" :: l, ?_, ?_, ?_, ?_⟩
      · simp [scoreRows, hst, hl]
      · simp [hidx, List.range'_succ]
      · simp [hsc]
      · intro res hres
        rcases List.mem_cons.mp hres with rfl | hres
        · simp [hst]
        · exact hprops res hres

/-- Joining two strings with a single separator. -/
theorem intercalate_pair (s a b : String) :
    String.intercalate s [a, b] = a ++ s ++ b := by
  simp [String.intercalate, String.intercalate.go]

/-- A single-pair group has one member. -/
theorem groupCount_single (k : String) (q : ℚ) : groupCount k [(k, q)] = 1 := by
  simp [groupCount]

/-- A single-pair group averages to its one amount. -/
theorem groupMean_single (k : String) (q : ℚ) : groupMean k [(k, q)] = q := by
  simp [groupMean, groupSum, groupCount]

/-- A row's ratio against its own amount is 0 (zero amount) or 1. -/
theorem safe_ratio_self (a : ℚ) : safe_ratio a a = 0 ∨ safe_ratio a a = 1 := by
  by_cases h : a = 0
  · left; simp [safe_ratio, h]
  · right; simp [safe_ratio, h, div_self h]

/-- A row never reaches the outlier ratio bound against its own amount. -/
theorem ratio_self_not_ge_five (a : ℚ) : ¬(safe_ratio a a ≥ 5) := by
  rcases safe_ratio_self a with h | h <;> rw [h] <;> norm_num

/-- The mean amount of a one-row batch is that row's coerced amount. -/
theorem batchMean_single (r : RawRow) : batchMean [r] = coerceAmount r.amount := by
  simp [batchMean, batchAmounts]

/-- When only the two novelty rules fire, the backend explanation is their
two messages joined by one space, with the raw-field display names. -/
theorem summarize_novelty_only (row : RawRow) (fv : FeatureVector)
    (hc1 : ¬(fv.vendor_amount_ratio ≥ 5 ∧ fv.vendor_avg_amount > 0))
    (hc2 : ¬(fv.dept_amount_ratio ≥ 5 ∧ fv.dept_avg_amount > 0))
    (hc3 : ¬(fv.global_amount_zscore ≥ 3))
    (hc4 : fv.vendor_txn_freq ≤ 1) (hc5 : fv.dept_txn_freq ≤ 1) :
    BackendUtils.summarize_anomaly_reason row fv =
      "First transaction recorded for " ++ displayName "this vendor" row.vendor ++
        " in this file." ++ " " ++
        (displayName "this department" row.department ++
          " only appears once, so this entry has no comparable peers.") := by
  simp only [BackendUtils.summarize_anomaly_reason, if_neg hc1, if_neg hc2, if_neg hc3,
    if_pos hc4, if_pos hc5]
  simp [intercalate_pair]

/-- The feature vector of any one-row batch with a numeric amount: both
groups are singletons, both averages equal the amount, both ratios compare
the amount with itself, and the z-score vanishes. -/
theorem single_row_features (sqrtQ log1pQ : ℚ → ℚ) (today : ℤ) (r : RawRow) (a : ℚ)
    (ha : r.amount = NumField.val a) :
    ∃ fv, prepare_features sqrtQ log1pQ today [r] = [fv] ∧
      fv.vendor = coerceStr UNKNOWN_VENDOR r.vendor ∧
      fv.department = coerceStr UNKNOWN_DEPARTMENT r.department ∧
      fv.vendor_txn_freq = 1 ∧ fv.dept_txn_freq = 1 ∧
      fv.vendor_avg_amount = a ∧ fv.dept_avg_amount = a ∧
      fv.vendor_amount_ratio = safe_ratio a a ∧
      fv.dept_amount_ratio = safe_ratio a a ∧
      fv.global_amount_zscore = 0 := by
  refine ⟨mkFeatureRow log1pQ today (vendorPairs [r]) (deptPairs [r]) (batchMean [r])
    (zscoreDenom sqrtQ [r]) r, ?_, ?_, ?_, ?_, ?_, ?_, ?_, ?_, ?_, ?_⟩
  · rw [prepare_features_eq_map]; simp
  · simp [mkFeatureRow]
  · simp [mkFeatureRow]
  · simp [mkFeatureRow, vendorPairs, ha, coerceAmount, groupCount_single]
  · simp [mkFeatureRow, deptPairs, ha, coerceAmount, groupCount_single]
  · simp [mkFeatureRow, vendorPairs, ha, coerceAmount, groupMean_single]
  · simp [mkFeatureRow, deptPairs, ha, coerceAmount, groupMean_single]
  · simp [mkFeatureRow, vendorPairs, ha, coerceAmount, groupMean_single]
  · simp [mkFeatureRow, deptPairs, ha, coerceAmount, groupMean_single]
  · simp [mkFeatureRow, batchMean_single, ha, coerceAmount]

/-! ### The claims -/

/-- C1: for every valid batch the scoring endpoint accepts (non-empty, within
the size cap, no missing raw column, scorer succeeding with one score per
row), the results list has exactly one entry per input row, its scores follow
the input order, and the entry at position `i` carries `index = i` — the
original 0-based batch position. -/
theorem C1_results_one_per_row_in_order
    (scorer : List FeatureVector → Option (List ℚ)) (threshold : ℚ)
    (sqrtQ log1pQ : ℚ → ℚ) (today : ℤ) (rows : List RawRow) (scores : List ℚ)
    (hne : rows ≠ []) (hcap : rows.length ≤ 10000)
    (hcols : missingFields rows = [])
    (hscore : scorer (prepare_features sqrtQ log1pQ today rows) = some scores)
    (hlen : scores.length = rows.length) :
    ∃ results, anomaly_score scorer threshold sqrtQ log1pQ today rows =
        ApiResponse.ok results threshold REQUIRED_RAW_COLUMNS ∧
      results.length = rows.length ∧
      results.map ScoredResult.score = scores ∧
      results.map ScoredResult.index = List.range rows.length := by
  have hft : (prepare_features sqrtQ log1pQ today rows).length = rows.length :=
    prepare_features_length _ _ _ _
  obtain ⟨l, hl, hidx, hsc, _⟩ :=
    scoreRows_spec threshold rows (prepare_features sqrtQ log1pQ today rows) scores 0
      (by omega) (by omega)
  refine ⟨l, ?_, ?_, hsc, ?_⟩
  · simp [anomaly_score, hne, hcols, hscore, hl]
    omega
  · have := congrArg List.length hsc
    simp at this
    omega
  · rw [hidx, hlen, List.range_eq_range']

/-- C1 witness: a concrete one-row batch accepted end to end. -/
theorem C1_results_one_per_row_in_order_witness :
    ∃ results, anomaly_score exScorer 0 (fun q => q) (fun q => q) 0 [exRow] =
        ApiResponse.ok results 0 REQUIRED_RAW_COLUMNS ∧
      results.length = [exRow].length ∧
      results.map ScoredResult.score = [0] ∧
      results.map ScoredResult.index = List.range [exRow].length :=
  C1_results_one_per_row_in_order exScorer 0 (fun q => q) (fun q => q) 0 [exRow] [0]
    (by decide) (by decide) (by decide) (by rfl) (by decide)

/-- C2: on every accepted batch, each returned row is anomalous exactly when
its score is strictly below the threshold; a score equal to the threshold is
not anomalous, and every non-anomalous row carries an empty reason string. -/
theorem C2_isAnomaly_strictly_below_threshold
    (scorer : List FeatureVector → Option (List ℚ)) (threshold : ℚ)
    (sqrtQ log1pQ : ℚ → ℚ) (today : ℤ) (rows : List RawRow) (scores : List ℚ)
    (hne : rows ≠ []) (hcap : rows.length ≤ 10000)
    (hcols : missingFields rows = [])
    (hscore : scorer (prepare_features sqrtQ log1pQ today rows) = some scores)
    (hlen : scores.length = rows.length) :
    ∃ results, anomaly_score scorer threshold sqrtQ log1pQ today rows =
        ApiResponse.ok results threshold REQUIRED_RAW_COLUMNS ∧
      ∀ res ∈ results,
        (res.isAnomaly = true ↔ res.score < threshold) ∧
        (res.score = threshold → res.isAnomaly = false) ∧
        (res.isAnomaly = false → res.reason = "") := by
  have hft : (prepare_features sqrtQ log1pQ today rows).length = rows.length :=
    prepare_features_length _ _ _ _
  obtain ⟨l, hl, _, _, hprops⟩ :=
    scoreRows_spec threshold rows (prepare_features sqrtQ log1pQ today rows) scores 0
      (by omega) (by omega)
  refine ⟨l, ?_, ?_⟩
  · simp [anomaly_score, hne, hcols, hscore, hl]
    omega
  · intro res hres
    obtain ⟨hiff, hempty⟩ := hprops res hres
    refine ⟨?_, ?_, hempty⟩
    · rw [hiff]; simp
    · intro heq
      rw [hiff, heq]
      simp

/-- C2 witness: a concrete one-row batch whose score 0 lies strictly below
the threshold 1. -/
theorem C2_isAnomaly_strictly_below_threshold_witness :
    ∃ results, anomaly_score exScorer 1 (fun q => q) (fun q => q) 0 [exRow] =
        ApiResponse.ok results 1 REQUIRED_RAW_COLUMNS ∧
      ∀ res ∈ results,
        (res.isAnomaly = true ↔ res.score < 1) ∧
        (res.score = 1 → res.isAnomaly = false) ∧
        (res.isAnomaly = false → res.reason = "") :=
  C2_isAnomaly_strictly_below_threshold exScorer 1 (fun q => q) (fun q => q) 0
    [exRow] [0] (by decide) (by decide) (by decide) (by rfl) (by decide)

/-- C3: both explanation generators evaluate their five rules independently
in the fixed priority order and join at most the first two matching messages
with a single space.  First part: whenever the vendor-outlier and
department-outlier rules both match, the output is exactly the vendor message
then the department message — whatever the global z-score, so a row matching
the first three rules never shows the global message.  Second part: when no
rule matches, both return the fixed fallback sentence. -/
theorem C3_explanation_rule_cascade_cap_two :
    (∀ (row : RawRow) (fv : FeatureVector),
      fv.vendor_amount_ratio ≥ 5 ∧ fv.vendor_avg_amount > 0 →
      fv.dept_amount_ratio ≥ 5 ∧ fv.dept_avg_amount > 0 →
      BackendUtils.summarize_anomaly_reason row fv =
        "Amount " ++ fmt2c (rowAmount row fv) ++ " is " ++
          fmt1 fv.vendor_amount_ratio ++ "x higher than " ++
          displayName "this vendor" row.vendor ++ "'s usual spend (~" ++
          fmt2c fv.vendor_avg_amount ++ ")." ++ " " ++
        ("Amount " ++ fmt2c (rowAmount row fv) ++ " is " ++
          fmt1 fv.dept_amount_ratio ++ "x the average for " ++
          displayName "this department" row.department ++ " (~" ++
          fmt2c fv.dept_avg_amount ++ ").") ∧
      AppMain.summarize_anomaly_reason row fv =
        "Amount " ++ fmt2c (rowAmount row fv) ++ " is " ++
          fmt1 fv.vendor_amount_ratio ++ "× higher than " ++
          displayName "this vendor" row.vendor ++ "'s usual spend (~" ++
          fmt2c fv.vendor_avg_amount ++ ")." ++ " " ++
        ("Amount " ++ fmt2c (rowAmount row fv) ++ " is " ++
          fmt1 fv.dept_amount_ratio ++ "× the average for " ++
          displayName "this department" row.department ++ " (~" ++
          fmt2c fv.dept_avg_amount ++ ").")) ∧
    (∀ (row : RawRow) (fv : FeatureVector),
      ¬(fv.vendor_amount_ratio ≥ 5 ∧ fv.vendor_avg_amount > 0) →
      ¬(fv.dept_amount_ratio ≥ 5 ∧ fv.dept_avg_amount > 0) →
      ¬(fv.global_amount_zscore ≥ 3) →
      ¬(fv.vendor_txn_freq ≤ 1) →
      ¬(fv.dept_txn_freq ≤ 1) →
      BackendUtils.summarize_anomaly_reason row fv =
        "Model flagged this entry as unusual compared to prior transactions." ∧
      AppMain.summarize_anomaly_reason row fv =
        "Model flagged this entry as unusual compared to prior transactions.") := by
  constructor
  · intro row fv hc1 hc2
    constructor
    · simp only [BackendUtils.summarize_anomaly_reason, if_pos hc1, if_pos hc2]
      simp [intercalate_pair]
    · simp only [AppMain.summarize_anomaly_reason, if_pos hc1, if_pos hc2]
      simp [intercalate_pair]
  · intro row fv hc1 hc2 hc3 hc4 hc5
    constructor
    · simp only [BackendUtils.summarize_anomaly_reason,
        if_neg hc1, if_neg hc2, if_neg hc3, if_neg hc4, if_neg hc5]
      simp
    · simp only [AppMain.summarize_anomaly_reason,
        if_neg hc1, if_neg hc2, if_neg hc3, if_neg hc4, if_neg hc5]
      simp

/-- C3 sanity instance: a concrete row matching the vendor, department and
global rules at once shows only the vendor and department messages (computed
outright, independently of `C3_explanation_rule_cascade_cap_two`). -/
theorem summarize_triple_match_example :
    BackendUtils.summarize_anomaly_reason exOutlierRow exOutlierFv =
      "Amount 1,000.00 is 10.0x higher than Acme's usual spend (~100.00). Amount 1,000.00 is 20.0x the average for Ops (~50.00)." := by
  with_unfolding_all decide

/-- C4: a feature vector produced by the feature builder whose vendor
(respectively department) group average is 0 carries a vendor (department)
amount ratio of exactly 0. -/
theorem C4_zero_group_average_gives_zero_ratio
    (sqrtQ log1pQ : ℚ → ℚ) (today : ℤ) (rows : List RawRow)
    (i : ℕ) (fv : FeatureVector)
    (hfv : (prepare_features sqrtQ log1pQ today rows)[i]? = some fv) :
    (fv.vendor_avg_amount = 0 → fv.vendor_amount_ratio = 0) ∧
    (fv.dept_avg_amount = 0 → fv.dept_amount_ratio = 0) := by
  rw [prepare_features_eq_map, List.getElem?_map] at hfv
  obtain ⟨r, hr, rfl⟩ := Option.map_eq_some'.mp hfv
  constructor
  · intro h0
    simp only [mkFeatureRow] at h0 ⊢
    rw [h0, safe_ratio, if_pos rfl]
  · intro h0
    simp only [mkFeatureRow] at h0 ⊢
    rw [h0, safe_ratio, if_pos rfl]

/-- C4 witness: a one-row batch with amount 0 has group averages 0 and both
ratio features exactly 0. -/
theorem C4_zero_group_average_gives_zero_ratio_witness :
    ((prepare_features (fun q => q) (fun q => q) 0 [exZeroRow])[0]? = some exZeroFv) ∧
    exZeroFv.vendor_avg_amount = 0 ∧ exZeroFv.vendor_amount_ratio = 0 ∧
    exZeroFv.dept_avg_amount = 0 ∧ exZeroFv.dept_amount_ratio = 0 := by
  have h : (prepare_features (fun q => q) (fun q => q) 0 [exZeroRow])[0]? =
      some exZeroFv := by with_unfolding_all decide
  refine ⟨h, by with_unfolding_all decide, ?_, by with_unfolding_all decide, ?_⟩
  · exact (C4_zero_group_average_gives_zero_ratio (fun q => q) (fun q => q) 0
      [exZeroRow] 0 exZeroFv h).1 (by with_unfolding_all decide)
  · exact (C4_zero_group_average_gives_zero_ratio (fun q => q) (fun q => q) 0
      [exZeroRow] 0 exZeroFv h).2 (by with_unfolding_all decide)

/-- C5: the z-score uses the population standard deviation (denominator `N`)
of the batch amounts.  First part: a batch in which every coerced amount is
the same value has `global_amount_zscore = 0` on every row (the variance is
0, so with `sqrt 0 = 0` the divisor falls back to 1.0 and the numerator
vanishes).  Second part: whenever the standard deviation is at most `1e-9`
(hence also when it is 0), the divisor used is exactly 1.0: the z-score is
the amount minus the batch mean, as section 4.1 states — not a division by a
stddev floored at `1e-9`. -/
theorem C5_population_zscore_constant_batch
    (sqrtQ log1pQ : ℚ → ℚ) (today : ℤ) (rows : List RawRow) :
    (∀ c : ℚ, sqrtQ 0 = 0 → rows ≠ [] → (∀ r ∈ rows, coerceAmount r.amount = c) →
      (prepare_features sqrtQ log1pQ today rows).map
          FeatureVector.global_amount_zscore =
        List.replicate rows.length 0) ∧
    (∀ (i : ℕ) (r : RawRow), sqrtQ (batchVar rows) ≤ (1e-9 : ℚ) →
      rows[i]? = some r →
      ((prepare_features sqrtQ log1pQ today rows)[i]?).map
          FeatureVector.global_amount_zscore =
        some (coerceAmount r.amount - batchMean rows)) := by
  constructor
  · intro c hsq hne hconst
    have hn : (rows.length : ℚ) ≠ 0 :=
      Nat.cast_ne_zero.mpr (by simpa using fun h => hne (List.length_eq_zero.mp h))
    have hamts : batchAmounts rows = List.replicate rows.length c := by
      refine List.eq_replicate.mpr ⟨by simp [batchAmounts], ?_⟩
      intro a ha
      obtain ⟨r, hr, rfl⟩ := List.mem_map.mp ha
      exact hconst r hr
    have hmean : batchMean rows = c := by
      rw [batchMean, hamts, List.sum_replicate, nsmul_eq_mul, mul_comm,
        mul_div_assoc, div_self hn, mul_one]
    have hvar : batchVar rows = 0 := by
      rw [batchVar, hamts, hmean]
      simp [List.map_replicate]
    have hdenom : zscoreDenom sqrtQ rows = 1 := by
      simp only [zscoreDenom, hvar, hsq]
      simp
    rw [prepare_features_eq_map, List.map_map]
    refine List.eq_replicate.mpr ⟨by simp, ?_⟩
    intro z hz
    obtain ⟨r, hr, rfl⟩ := List.mem_map.mp hz
    simp [mkFeatureRow, hmean, hdenom, hconst r hr]
  · intro i r hsmall hr
    have hdenom : zscoreDenom sqrtQ rows = 1 := by
      simp only [zscoreDenom]
      exact if_neg fun h => absurd h.2 (not_lt.mpr hsmall)
    rw [prepare_features_eq_map, List.getElem?_map, hr, Option.map_some',
      Option.map_some']
    simp [mkFeatureRow, hdenom]

/-- C5 sanity instance: a concrete two-row constant batch gets z-score 0 on
both rows (computed outright). -/
theorem constant_batch_zscore_example :
    (prepare_features (fun q => q) (fun q => q) 0 [exRow, exRow]).map
      FeatureVector.global_amount_zscore = [0, 0] := by
  with_unfolding_all decide

/-- C6: a row whose amount is missing or non-numeric, or whose date is
missing or unparseable, never makes the feature builder fail: the builder
still returns one feature vector for every row of the batch, the defective
fields only degrade to the neutral defaults (amount 0.0, day_of_week -1,
month 0, is_month_end 0, doc_age_days 0) on that row. -/
theorem C6_malformed_rows_degrade_to_defaults
    (sqrtQ log1pQ : ℚ → ℚ) (today : ℤ) (rows : List RawRow) :
    (prepare_features sqrtQ log1pQ today rows).length = rows.length ∧
    ∀ (i : ℕ) (r : RawRow), rows[i]? = some r →
      ∃ fv, (prepare_features sqrtQ log1pQ today rows)[i]? = some fv ∧
        ((∀ q, r.amount ≠ NumField.val q) → fv.amount = 0) ∧
        (parseDate r.date = none →
          fv.day_of_week = -1 ∧ fv.month = 0 ∧ fv.is_month_end = 0 ∧
            fv.doc_age_days = 0) := by
  refine ⟨prepare_features_length _ _ _ _, ?_⟩
  intro i r hr
  refine ⟨mkFeatureRow log1pQ today (vendorPairs rows) (deptPairs rows)
    (batchMean rows) (zscoreDenom sqrtQ rows) r, ?_, ?_, ?_⟩
  · rw [prepare_features_eq_map, List.getElem?_map, hr, Option.map_some']
  · intro hnum
    cases hq : r.amount with
    | val q => exact absurd hq (hnum q)
    | absent => simp [mkFeatureRow, coerceAmount, hq]
    | null => simp [mkFeatureRow, coerceAmount, hq]
    | malformed => simp [mkFeatureRow, coerceAmount, hq]
  · intro hdate
    simp [mkFeatureRow, hdate]

/-- C6 sanity instance: a two-row batch whose first row is fully malformed
still yields two feature vectors, the bad row on neutral defaults (computed
outright). -/
theorem malformed_row_defaults_example :
    (prepare_features (fun q => q) (fun q => q) 0 [exBadRow, exRow]).length = 2 ∧
    ((prepare_features (fun q => q) (fun q => q) 0 [exBadRow, exRow]).map
      fun fv => (fv.amount, fv.day_of_week, fv.month, fv.is_month_end,
        fv.doc_age_days)) =
      [(0, -1, 0, 0, 0), (5, -1, 0, 0, 0)] := by
  constructor
  · with_unfolding_all decide
  · with_unfolding_all decide

/-- C7: when one or more required raw columns are absent across the whole
batch (and the batch passes the shape checks that come first), the endpoint
returns the single batch-level error naming exactly the missing fields —
for any scorer, threshold or clock, since the check precedes feature
building and scoring; and a field is reported missing precisely when it is a
required column that no row of the batch carries as a key, so a column
present in any row, even with a null value, is never reported. -/
theorem C7_missing_columns_single_batch_error (rows : List RawRow)
    (hne : rows ≠ []) (hcap : rows.length ≤ 10000)
    (hmiss : missingFields rows ≠ []) :
    (∀ (scorer : List FeatureVector → Option (List ℚ)) (threshold : ℚ)
        (sqrtQ log1pQ : ℚ → ℚ) (today : ℤ),
      anomaly_score scorer threshold sqrtQ log1pQ today rows =
        ApiResponse.clientError
          ("Missing fields: " ++ String.intercalate ", " (missingFields rows))) ∧
    (∀ f, f ∈ missingFields rows ↔
      f ∈ REQUIRED_RAW_COLUMNS ∧ ∀ r ∈ rows, f ∉ rowKeys r) := by
  constructor
  · intro scorer threshold sqrtQ log1pQ today
    simp [anomaly_score, hne, hmiss]
    omega
  · intro f
    simp [missingFields, List.mem_filter, hasColumn]

/-- C7 witness: a one-row batch whose `vendor` key is absent while its
`department` key is present with a null value is rejected naming only
`vendor`. -/
theorem C7_missing_columns_single_batch_error_witness :
    (∀ (scorer : List FeatureVector → Option (List ℚ)) (threshold : ℚ)
        (sqrtQ log1pQ : ℚ → ℚ) (today : ℤ),
      anomaly_score scorer threshold sqrtQ log1pQ today [exRowNoVendor] =
        ApiResponse.clientError
          ("Missing fields: " ++
            String.intercalate ", " (missingFields [exRowNoVendor]))) ∧
    (∀ f, f ∈ missingFields [exRowNoVendor] ↔
      f ∈ REQUIRED_RAW_COLUMNS ∧ ∀ r ∈ [exRowNoVendor], f ∉ rowKeys r) :=
  C7_missing_columns_single_batch_error [exRowNoVendor]
    (by decide) (by decide) (by decide)

/-- C8: the feature builder is a pure function of its input sequence and the
clock — in this embedding determinism and idempotence hold by construction,
matching the source, which touches no state outside its local frame — and
`doc_age_days` is the only feature through which the clock enters: two runs
on the same rows at different "now" values agree on every feature vector
once that one field is blanked. -/
theorem C8_only_doc_age_depends_on_clock
    (sqrtQ log1pQ : ℚ → ℚ) (rows : List RawRow) (t1 t2 : ℤ) :
    (prepare_features sqrtQ log1pQ t1 rows).map clearDocAge =
      (prepare_features sqrtQ log1pQ t2 rows).map clearDocAge := by
  rw [prepare_features_eq_map, prepare_features_eq_map, List.map_map, List.map_map]
  exact List.map_congr_left fun r _ => rfl

set_option maxRecDepth 8000 in
/-- C9 counterexample: a single-row batch with null vendor/department keys
and amount 100.  Its reason is `noveltyReasonStr`, which names "this vendor"
(the raw-field fallback) — it does NOT mention "First transaction recorded
for Unknown Vendor" as the claim states, because the display name comes from
the raw row, never from the feature builder's sentinel. -/
theorem C9_counterexample :
    (prepare_features (fun q => q) (fun q => q) 0 [rowNullVD DateField.absent 100]).map
        (BackendUtils.summarize_anomaly_reason (rowNullVD DateField.absent 100)) =
      [noveltyReasonStr] ∧
    ¬ (("First transaction recorded for Unknown Vendor").toList <:+:
        noveltyReasonStr.toList) := by
  constructor
  · with_unfolding_all decide
  · decide

/-- C9 (amended): for a single-row batch whose vendor and department keys
are null, the feature vector carries the sentinel strings "Unknown Vendor" /
"Unknown Department" and `vendor_txn_freq = 1`; but the flagged-row reason
uses the raw-field fallback "this vendor" in the null case just as in the
present-but-blank case — the two cases produce the same reason, which
mentions "First transaction recorded for this vendor", never the sentinel. -/
theorem C9_sentinel_features_and_raw_name_fallback
    (sqrtQ log1pQ : ℚ → ℚ) (today : ℤ) (a : ℚ) (d : DateField) :
    (prepare_features sqrtQ log1pQ today [rowNullVD d a]).map FeatureVector.vendor =
      ["Unknown Vendor"] ∧
    (prepare_features sqrtQ log1pQ today [rowNullVD d a]).map
        FeatureVector.department = ["Unknown Department"] ∧
    (prepare_features sqrtQ log1pQ today [rowNullVD d a]).map
        FeatureVector.vendor_txn_freq = [1] ∧
    (prepare_features sqrtQ log1pQ today [rowNullVD d a]).map
        (BackendUtils.summarize_anomaly_reason (rowNullVD d a)) =
      [noveltyReasonStr] ∧
    (prepare_features sqrtQ log1pQ today [rowBlankVD d a]).map
        (BackendUtils.summarize_anomaly_reason (rowBlankVD d a)) =
      [noveltyReasonStr] ∧
    ("First transaction recorded for this vendor").toList <:+:
      noveltyReasonStr.toList := by
  obtain ⟨fvN, hN, hv, hd2, hf, hg, havgv, havgd, hrv, hrd, hz⟩ :=
    single_row_features sqrtQ log1pQ today (rowNullVD d a) a rfl
  obtain ⟨fvB, hB, hv', hd2', hf', hg', havgv', havgd', hrv', hrd', hz'⟩ :=
    single_row_features sqrtQ log1pQ today (rowBlankVD d a) a rfl
  have hsum : ∀ (row : RawRow) (fv : FeatureVector),
      fv.vendor_amount_ratio = safe_ratio a a →
      fv.dept_amount_ratio = safe_ratio a a →
      fv.global_amount_zscore = 0 → fv.vendor_txn_freq = 1 → fv.dept_txn_freq = 1 →
      BackendUtils.summarize_anomaly_reason row fv =
        "First transaction recorded for " ++ displayName "this vendor" row.vendor ++
          " in this file." ++ " " ++
          (displayName "this department" row.department ++
            " only appears once, so this entry has no comparable peers.") := by
    intro row fv h1 h2 h3 h4 h5
    exact summarize_novelty_only row fv
      (fun hc => ratio_self_not_ge_five a (h1 ▸ hc.1))
      (fun hc => ratio_self_not_ge_five a (h2 ▸ hc.1))
      (by rw [h3]; norm_num) (le_of_eq h4) (le_of_eq h5)
  refine ⟨?_, ?_, ?_, ?_, ?_, ?_⟩
  · rw [hN]; simp only [List.map_cons, List.map_nil, hv]
    with_unfolding_all rfl
  · rw [hN]; simp only [List.map_cons, List.map_nil, hd2]
    with_unfolding_all rfl
  · rw [hN]; simp only [List.map_cons, List.map_nil, hf]
  · rw [hN]; simp only [List.map_cons, List.map_nil]
    rw [hsum _ _ hrv hrd hz hf hg]
    with_unfolding_all rfl
  · rw [hB]; simp only [List.map_cons, List.map_nil]
    rw [hsum _ _ hrv' hrd' hz' hf' hg']
    with_unfolding_all rfl
  · decide

/-- C10 counterexample: on a feature record where only the global z-score
rule fires, the backend copy says "5.0 standard deviation above" while the
app copy says "5.0 standard deviations above" — the two implementations do
not return identical strings for every input. -/
theorem C10_counterexample :
    BackendUtils.summarize_anomaly_reason exZRow exZFv ≠
      AppMain.summarize_anomaly_reason exZRow exZFv := by
  with_unfolding_all decide

/-- C10 (amended): the two implementations evaluate the same five conditions
in the same order with the same cap and fallback, but the literal text of
the first three messages differs ("x" versus "×" in the two outlier
messages, "standard deviation" versus "standard deviations" in the z-score
message); they return identical strings whenever none of those first three
rules matches. -/
theorem C10_implementations_agree_without_outlier_rules
    (row : RawRow) (fv : FeatureVector)
    (hc1 : ¬(fv.vendor_amount_ratio ≥ 5 ∧ fv.vendor_avg_amount > 0))
    (hc2 : ¬(fv.dept_amount_ratio ≥ 5 ∧ fv.dept_avg_amount > 0))
    (hc3 : ¬(fv.global_amount_zscore ≥ 3)) :
    BackendUtils.summarize_anomaly_reason row fv =
      AppMain.summarize_anomaly_reason row fv := by
  simp only [BackendUtils.summarize_anomaly_reason, AppMain.summarize_anomaly_reason,
    if_neg hc1, if_neg hc2, if_neg hc3]

/-- C10 witness: on a feature record matching no rule at all the two
implementations agree (both return the fallback). -/
theorem C10_implementations_agree_without_outlier_rules_witness :
    BackendUtils.summarize_anomaly_reason exZRow exQuietFv =
      AppMain.summarize_anomaly_reason exZRow exQuietFv :=
  C10_implementations_agree_without_outlier_rules exZRow exQuietFv
    (by with_unfolding_all decide) (by with_unfolding_all decide)
    (by with_unfolding_all decide)
